import Mathlib

/-
  Verification development for the order-payment-inventory reconciliation
  workflow of an e-commerce backend (TypeScript/Express/Mongoose).

  Shallow embedding conventions:
  - Mongoose documents become Lean structures; an object id is a Nat.
  - The database is an explicit record of three collections (products,
    carts, orders); a Mongoose save of a document is modelled as an
    upsert into the corresponding list, keyed by the document identity
    (product id, cart owner key, order id).
  - A Mongoose session/transaction is modelled by threading the state
    through the handler: an aborted transaction returns an error and the
    caller keeps the original state, a committed transaction returns the
    new state.
  - JS numbers that hold money amounts, quantities and stock counts are
    modelled as Int (stock subtraction in the source is plain JS
    subtraction and can go below zero, which Int captures).
  - Network calls (the eSewa status check) are modelled by passing the
    poll outcome as an input: none models the call throwing
    (gateway unreachable), some r models a decoded status response.
  - crypto.createHmac with sha256 and base64 digest is modelled as an
    ideal MAC: a function of the key and the message that is injective
    in the message for a fixed key.
-/

namespace EcomSpec

/-! ## Data model (src/src/model) -/

/-- Product document (src/src/model/Product.ts): catalog entity with a
stock count; stock is modelled as Int because the source mutates it by
plain subtraction. -/
structure Product where
  id : Nat
  name : String
  price : Int
  stock : Int
  mainImage : String
deriving Repr, DecidableEq

/-- Cart line item (CartItemSchema, src/src/model/Category.ts): product
reference, quantity, unit price snapshot, display name and image. -/
structure CartItem where
  product : Nat
  quantity : Int
  price : Int
  name : String
  image : String
deriving Repr, DecidableEq

/-- Cart document (CartSchema, src/src/model/Category.ts): one per owner
key (userId), with a derived totalAmount maintained by a pre-save hook. -/
structure Cart where
  userId : String
  items : List CartItem
  totalAmount : Int
deriving Repr, DecidableEq

/-- Order line item (OrderItemSchema, src/src/model/Order.ts): immutable
snapshot of product reference, quantity and unit price. -/
structure OrderItem where
  product : Nat
  quantity : Int
  price : Int
deriving Repr, DecidableEq

/-- Delivery address (DeliveryAddressSchema, src/src/model/Order.ts). -/
structure DeliveryAddress where
  fullName : String
  phoneNumber : String
  address : String
  city : String
  postalCode : Option String
deriving Repr, DecidableEq

/-- Order owner identity (UserInfoSchema, src/src/model/Order.ts). -/
structure UserInfo where
  userId : String
  username : String
deriving Repr, DecidableEq

/-- paymentMethod union type of IOrder. -/
inductive PaymentMethod where
  | CASH_ON_DELIVERY
  | ESEWA
deriving Repr, DecidableEq

/-- paymentStatus union type of IOrder. -/
inductive PaymentStatus where
  | PENDING
  | PAID
  | FAILED
deriving Repr, DecidableEq

/-- orderStatus union type of IOrder. -/
inductive OrderStatus where
  | PENDING
  | CONFIRMED
  | DELIVERED
  | CANCELLED
deriving Repr, DecidableEq

/-- Order document (OrderSchema, src/src/model/Order.ts). -/
structure Order where
  id : Nat
  userInfo : UserInfo
  items : List OrderItem
  deliveryAddress : DeliveryAddress
  paymentMethod : PaymentMethod
  paymentStatus : PaymentStatus
  orderStatus : OrderStatus
  totalAmount : Int
  taxAmount : Int
  deliveryCharge : Int
  grandTotal : Int
  esewaTransactionUuid : Option String
  esewaTransactionCode : Option String
  esewaRefId : Option String
  esewaSignature : Option String
  notes : Option String
deriving Repr, DecidableEq

/-- Database state: the three collections the core workflow touches. -/
structure DB where
  products : List Product
  carts : List Cart
  orders : List Order
deriving Repr, DecidableEq

/-! ## Collection access helpers (Mongoose findById / findOne / save) -/

/-- Error outcomes of the controllers: the stable kinds of the 4xx JSON
bodies, plus validationFailed for a Mongoose ValidationError thrown by a
save (surfaced as a 500 through next(error) after the transaction
aborts). insufficientStock carries the details object of the
createOrderFromCart response (productId, productName, availableStock,
requestedQuantity); validationFailed carries the offending document id
and the rejected stock value. -/
inductive ApiError where
  | userIdRequired
  | addressRequired
  | invalidPaymentMethod
  | cartEmpty
  | cartNotFound
  | itemNotFound
  | productNotFound (productName : String)
  | insufficientStock (productId : Nat) (productName : String)
      (availableStock requestedQuantity : Int)
  | insufficientStockForCart
  | invalidQuantity
  | dataRequired
  | invalidSignature
  | orderNotFound
  | invalidOrderStatus
  | validationFailed (productId : Nat) (stock : Int)
deriving Repr, DecidableEq

/-- Product.findById. -/
def findProduct (products : List Product) (pid : Nat) : Option Product :=
  products.find? (fun p => p.id = pid)

/-- product.save on an existing document: ProductSchema declares stock
with min 0 (src/src/model/Product.ts lines 114-119) and Mongoose runs
the schema validators on save, so a save carrying a negative stock
rejects (the promise throws a ValidationError) instead of persisting;
a passing save replaces the stored document with the same id. The
schema's other validators (price min 0, rating bounds) are never at
stake in the embedded handlers, which only ever rewrite stock. -/
def saveProduct (products : List Product) (p : Product) :
    Except ApiError (List Product) :=
  if p.stock < 0 then .error (ApiError.validationFailed p.id p.stock)
  else .ok (products.map (fun q => if q.id = p.id then p else q))

/-- Cart.findOne with a userId filter (the cart collection is keyed by
owner). -/
def findCart (carts : List Cart) (uid : String) : Option Cart :=
  carts.find? (fun c => c.userId = uid)

/-- totalAmount recomputation of the CartSchema pre-save hook
(src/src/model/Category.ts lines 94-97): items.reduce summing
price * quantity starting from 0. -/
def cartTotal (items : List CartItem) : Int :=
  items.foldl (fun total item => total + item.price * item.quantity) 0

/-- CartSchema pre-save hook: this.totalAmount := recomputed total. -/
def applyCartPreSaveHook (c : Cart) : Cart :=
  { c with totalAmount := cartTotal c.items }

/-- cart.save: the pre-save hook runs, then the document is upserted
(replaced when a cart with the owner key exists, inserted otherwise). -/
def saveCart (carts : List Cart) (c : Cart) : List Cart :=
  let saved := applyCartPreSaveHook c
  if (carts.find? (fun d => d.userId = saved.userId)).isSome then
    carts.map (fun d => if d.userId = saved.userId then saved else d)
  else
    carts ++ [saved]

/-- Order.findById. -/
def findOrder (orders : List Order) (oid : Nat) : Option Order :=
  orders.find? (fun o => o.id = oid)

/-- Order.findOne with an esewaTransactionUuid filter. -/
def findOrderByUuid (orders : List Order) (uuid : String) : Option Order :=
  orders.find? (fun o => o.esewaTransactionUuid = some uuid)

/-- order.save: upsert by order id (insert of a new document, replace of
an existing one). -/
def saveOrder (orders : List Order) (o : Order) : List Order :=
  if (orders.find? (fun p => p.id = o.id)).isSome then
    orders.map (fun p => if p.id = o.id then o else p)
  else
    orders ++ [o]

/-! ## Payment gateway adapter (src/src/utils/Esewa.ts) -/

/-- ESEWA_CONFIG.SECRET_KEY default value. -/
def SECRET_KEY : String := "8gBm/:&EnhH.1/q"

/-- ESEWA_CONFIG.MERCHANT_CODE default value. -/
def MERCHANT_CODE : String := "EPAYTEST"

/-- ESEWA_CONFIG.GATEWAY_URL (non-production default). -/
def GATEWAY_URL : String := "https://rc-epay.esewa.com.np/api/epay/main/v2/form"

/-- ESEWA_CONFIG.SUCCESS_URL default value. -/
def SUCCESS_URL : String := "http://localhost:5000/api/order/esewa/success"

/-- ESEWA_CONFIG.FAILURE_URL default value. -/
def FAILURE_URL : String := "http://localhost:5000/api/order/esewa/failure"

/-- Whitespace test of the JS string trim (space, tab, newline,
carriage return cover every character appearing in the secrets the
adapter trims). -/
def isJsWhitespace (c : Char) : Bool :=
  c = ' ' ∨ c = Char.ofNat 9 ∨ c = Char.ofNat 10 ∨ c = Char.ofNat 13

/-- Character-list trim helper. -/
def trimChars (l : List Char) : List Char :=
  ((l.dropWhile isJsWhitespace).reverse.dropWhile isJsWhitespace).reverse

/-- Model of the JS String trim method. -/
def jsTrim (s : String) : String :=
  String.mk (trimChars s.data)

/-- Comma-split helper on character lists, accumulating the current
segment in reverse. -/
def splitCommaAux : List Char → List Char → List String
  | [], acc => [String.mk acc.reverse]
  | c :: rest, acc =>
    if c = ',' then String.mk acc.reverse :: splitCommaAux rest []
    else splitCommaAux rest (c :: acc)

/-- Model of the JS String split method with the comma separator (an
empty string splits to the singleton list of the empty string, as in
JS). -/
def jsSplitComma (s : String) : List String :=
  splitCommaAux s.data []

/-- Model of the JS Array join method with the comma separator. -/
def joinComma : List String → String
  | [] => ""
  | [x] => x
  | x :: rest => x ++ "," ++ joinComma rest

/-- Model of crypto.createHmac applied with sha256, a key and a message,
digested to base64: an ideal MAC, concrete and injective in the message
for each fixed key (collision resistance is assumed perfect in the
model; no claim depends on the bit-level value of the digest). -/
def hmacSha256 (key message : String) : String :=
  "hmac-sha256:" ++ key ++ ":" ++ message

/-- generateEsewaSignature (src/src/utils/Esewa.ts lines 17-27): signs
the fixed-order three-field message with the untrimmed secret. In the
source productCode defaults to ESEWA_CONFIG.MERCHANT_CODE; callers of
the embedding pass it explicitly. -/
def generateEsewaSignature (totalAmount : Int) (transactionUuid : String)
    (productCode : String) : String :=
  let message := "total_amount=" ++ toString totalAmount ++
    ",transaction_uuid=" ++ transactionUuid ++
    ",product_code=" ++ productCode
  hmacSha256 SECRET_KEY message

/-- Message reconstruction of verifyEsewaSignature as found in
src/src/utils/Esewa.ts lines 30-60: a single template literal joining
the six fields in a hardcoded order; the signedFieldNames argument is
interpolated as a value but never consulted for the order. -/
def esewaVerifyMessage (transactionCode status totalAmount transactionUuid
    productCode signedFieldNames : String) : String :=
  "transaction_code=" ++ transactionCode ++
  ",status=" ++ status ++
  ",total_amount=" ++ totalAmount ++
  ",transaction_uuid=" ++ transactionUuid ++
  ",product_code=" ++ productCode ++
  ",signed_field_names=" ++ signedFieldNames

/-- verifyEsewaSignature (src/src/utils/Esewa.ts lines 30-60): recompute
the keyed hash of the hardcoded-order message with the trimmed secret
and compare with the received signature by exact string equality. -/
def verifyEsewaSignature (transactionCode status totalAmount transactionUuid
    productCode signedFieldNames receivedSignature : String) : Bool :=
  let expectedSignature := hmacSha256 (jsTrim SECRET_KEY)
    (esewaVerifyMessage transactionCode status totalAmount transactionUuid
      productCode signedFieldNames)
  expectedSignature = receivedSignature

namespace Rev0

/-- Field lookup of the verifyEsewaSignature revision in
src/unnamed/part_000 lines 31-74: the values object indexed by a field
name; an unknown field name yields the JS undefined, which the template
literal renders as the string undefined. -/
def fieldValue (transactionCode status totalAmount transactionUuid
    productCode signedFieldNames field : String) : String :=
  if field = "transaction_code" then transactionCode
  else if field = "status" then status
  else if field = "total_amount" then totalAmount
  else if field = "transaction_uuid" then transactionUuid
  else if field = "product_code" then productCode
  else if field = "signed_field_names" then signedFieldNames
  else "undefined"

/-- Message reconstruction of the src/unnamed/part_000 revision: split
signedFieldNames on commas and join field=value pairs in exactly the
order the split produced. -/
def verifyMessage (transactionCode status totalAmount transactionUuid
    productCode signedFieldNames : String) : String :=
  let fields := jsSplitComma signedFieldNames
  joinComma
    (fields.map (fun field => field ++ "=" ++
      fieldValue transactionCode status totalAmount transactionUuid
        productCode signedFieldNames field))

/-- verifyEsewaSignature of the src/unnamed/part_000 revision: keyed
hash of the signedFieldNames-ordered message with the trimmed secret,
compared by exact string equality. -/
def verifyEsewaSignature (transactionCode status totalAmount transactionUuid
    productCode signedFieldNames receivedSignature : String) : Bool :=
  let expectedSignature := hmacSha256 (jsTrim SECRET_KEY)
    (verifyMessage transactionCode status totalAmount transactionUuid
      productCode signedFieldNames)
  expectedSignature = receivedSignature

end Rev0

/-- Outbound payment form record returned by prepareEsewaPaymentData. -/
structure EsewaPaymentData where
  amount : String
  tax_amount : String
  total_amount : String
  transaction_uuid : String
  product_code : String
  product_service_charge : String
  product_delivery_charge : String
  success_url : String
  failure_url : String
  signed_field_names : String
  signature : String
  gateway_url : String
deriving Repr, DecidableEq

/-- prepareEsewaPaymentData (src/src/utils/Esewa.ts lines 92-117):
total = amount + tax + delivery, signature over the declared field list
total_amount,transaction_uuid,product_code. In the source productCode
defaults to ESEWA_CONFIG.MERCHANT_CODE. -/
def prepareEsewaPaymentData (amount taxAmount deliveryCharge : Int)
    (transactionUuid productCode : String) : EsewaPaymentData :=
  let totalAmount := amount + taxAmount + deliveryCharge
  let signature := generateEsewaSignature totalAmount transactionUuid productCode
  { amount := toString amount
    tax_amount := toString taxAmount
    total_amount := toString totalAmount
    transaction_uuid := transactionUuid
    product_code := productCode
    product_service_charge := "0"
    product_delivery_charge := toString deliveryCharge
    success_url := SUCCESS_URL
    failure_url := FAILURE_URL
    signed_field_names := "total_amount,transaction_uuid,product_code"
    signature := signature
    gateway_url := GATEWAY_URL }

/-- Left-pad with the zero character to length 4, as padStart does in
generateTransactionUuid. -/
def padStart4 (s : String) : String :=
  if s.length ≥ 4 then s
  else String.mk (List.replicate (4 - s.length) (Char.ofNat 48)) ++ s

/-- generateTransactionUuid (src/src/utils/Esewa.ts lines 63-67): the
nondeterministic inputs Date.now and the random draw are explicit
parameters of the embedding. -/
def generateTransactionUuid (timestamp randomDraw : Nat) : String :=
  "TXN-" ++ toString timestamp ++ "-" ++ padStart4 (toString (randomDraw % 10000))

/-! ## Order controller (src/src/controller/Order.ts) -/

/-- Request body of createOrderFromCart (src/src/controller/Order.ts
lines 21-28): userId, username, deliveryAddress, paymentMethod (a raw
string, validated against the two allowed values), taxAmount and
deliveryCharge (defaulted to 0 by the destructuring), notes. -/
structure CreateOrderRequest where
  userId : String
  username : String
  deliveryAddress : Option DeliveryAddress
  paymentMethod : String
  taxAmount : Int
  deliveryCharge : Int
  notes : Option String
deriving Repr, DecidableEq

/-- Validation loop of createOrderFromCart (src/src/controller/Order.ts
lines 61-91): walk the cart items in order; a missing product or an
item whose quantity exceeds the product stock aborts the transaction
with the corresponding error; otherwise accumulate the item total and
the validated order line. -/
def validateCartItems (products : List Product) :
    List CartItem → Except ApiError (Int × List OrderItem)
  | [] => .ok (0, [])
  | cartItem :: rest =>
    match findProduct products cartItem.product with
    | none => .error (.productNotFound cartItem.name)
    | some product =>
      if product.stock < cartItem.quantity then
        .error (.insufficientStock product.id product.name product.stock
          cartItem.quantity)
      else
        match validateCartItems products rest with
        | .error e => .error e
        | .ok (restTotal, restItems) =>
          .ok (cartItem.price * cartItem.quantity + restTotal,
            { product := product.id
              quantity := cartItem.quantity
              price := cartItem.price } :: restItems)

/-- Stock-decrement loop of the CASH_ON_DELIVERY branch of
createOrderFromCart (src/src/controller/Order.ts lines 126-132): for
each cart item, find the product by id and, when found, subtract the
quantity and save; no availability check happens here (the check ran in
the validation loop of the same transaction). A save rejected by the
stock validator throws out of the loop; the partial session writes of
the earlier iterations are then discarded by the abort, so the
embedding reports just the error. -/
def reduceStockForCart (products : List Product) :
    List CartItem → Except ApiError (List Product)
  | [] => .ok products
  | cartItem :: rest =>
    match findProduct products cartItem.product with
    | some product =>
      match saveProduct products
          { product with stock := product.stock - cartItem.quantity } with
      | .error e => .error e
      | .ok ps => reduceStockForCart ps rest
    | none => reduceStockForCart products rest

/-- Stock-decrement loop of handleEsewaSuccess (src/src/controller/Order.ts
lines 269-275 and 299-305): for each order item, find the product and
subtract the quantity; the source performs no availability check here,
so the only thing stopping a negative write is the stock validator
rejecting the save. -/
def reduceStockForOrder (products : List Product) :
    List OrderItem → Except ApiError (List Product)
  | [] => .ok products
  | orderItem :: rest =>
    match findProduct products orderItem.product with
    | some product =>
      match saveProduct products
          { product with stock := product.stock - orderItem.quantity } with
      | .error e => .error e
      | .ok ps => reduceStockForOrder ps rest
    | none => reduceStockForOrder products rest

/-- createOrderFromCart (src/src/controller/Order.ts lines 16-196).
newOrderId is the identity Mongoose mints for the new document;
timestamp and randomDraw feed generateTransactionUuid. A successful
COD creation returns the committed state and the confirmed order; a
successful ESEWA creation additionally returns the signed payment
request; every error path aborts the transaction, so the caller keeps
the original state. -/
def createOrderFromCart (db : DB) (req : CreateOrderRequest)
    (newOrderId timestamp randomDraw : Nat) :
    Except ApiError (DB × Order × Option EsewaPaymentData) :=
  if req.userId = "" then .error .userIdRequired
  else
    match req.deliveryAddress with
    | none => .error .addressRequired
    | some addr =>
      if addr.fullName = "" ∨ addr.phoneNumber = "" ∨ addr.address = "" ∨
          addr.city = "" then .error .addressRequired
      else if ¬ (req.paymentMethod = "CASH_ON_DELIVERY" ∨
          req.paymentMethod = "ESEWA") then .error .invalidPaymentMethod
      else
        match findCart db.carts req.userId with
        | none => .error .cartEmpty
        | some cart =>
          if cart.items = [] then .error .cartEmpty
          else
            match validateCartItems db.products cart.items with
            | .error e => .error e
            | .ok (totalAmount, validatedItems) =>
              let grandTotal := totalAmount + req.taxAmount + req.deliveryCharge
              let uuid := generateTransactionUuid timestamp randomDraw
              let order : Order :=
                { id := newOrderId
                  userInfo := { userId := req.userId, username := req.username }
                  items := validatedItems
                  deliveryAddress := addr
                  paymentMethod :=
                    if req.paymentMethod = "CASH_ON_DELIVERY" then
                      PaymentMethod.CASH_ON_DELIVERY
                    else PaymentMethod.ESEWA
                  paymentStatus := PaymentStatus.PENDING
                  orderStatus := OrderStatus.PENDING
                  totalAmount := totalAmount
                  taxAmount := req.taxAmount
                  deliveryCharge := req.deliveryCharge
                  grandTotal := grandTotal
                  esewaTransactionUuid :=
                    if req.paymentMethod = "ESEWA" then some uuid else none
                  esewaTransactionCode := none
                  esewaRefId := none
                  esewaSignature := none
                  notes := req.notes }
              if req.paymentMethod = "CASH_ON_DELIVERY" then
                match reduceStockForCart db.products cart.items with
                | .error e => .error e
                | .ok products1 =>
                  let carts1 := saveCart db.carts { cart with items := [] }
                  let order1 := { order with orderStatus := OrderStatus.CONFIRMED }
                  .ok ({ products := products1, carts := carts1,
                         orders := saveOrder db.orders order1 }, order1, none)
              else
                let paymentData := prepareEsewaPaymentData totalAmount
                  req.taxAmount req.deliveryCharge uuid MERCHANT_CODE
                .ok ({ db with orders := saveOrder db.orders order },
                  order, some paymentData)

/-- Decoded eSewa callback payload (the result of decodeEsewaResponse
on the base64 data query parameter); all fields are strings, as in the
gateway JSON. -/
structure EsewaPaymentResponse where
  transaction_code : String
  status : String
  total_amount : String
  transaction_uuid : String
  product_code : String
  signed_field_names : String
  signature : String
deriving Repr, DecidableEq

/-- Decoded body of the eSewa status-check endpoint, as consumed by the
handlers (status string and optional ref_id). -/
structure EsewaStatusResponse where
  status : String
  ref_id : Option String
deriving Repr, DecidableEq

/-- handleEsewaSuccess (src/src/controller/Order.ts lines 198-338).
The payload arrives already decoded (decodeEsewaResponse is
deterministic); statusCheck is the outcome of the
checkEsewaPaymentStatus network call, none modelling the call throwing
(gateway unreachable). The source verifies the signature, looks the
order up by transaction uuid, then either marks it PAID/CONFIRMED and
decrements stock and clears the cart (callback status COMPLETE and the
status check agreeing or unreachable), or marks it FAILED/CANCELLED.
No check of the current paymentStatus is made anywhere on this path.
A stock save rejected by the validator throws: thrown inside the inner
try it lands in the catch block, whose COMPLETE branch re-runs the
decrement loop against the session state and necessarily re-throws at
or before the same item (that product's session stock is unchanged, the
earlier ones only shrank), and thrown inside the catch block it
propagates directly; either way the outer catch aborts the transaction,
which the embedding reports as the validation error with the state
unchanged. -/
def handleEsewaSuccess (db : DB) (resp : EsewaPaymentResponse)
    (statusCheck : Option EsewaStatusResponse) :
    Except ApiError (DB × Order) :=
  let isValidSignature := verifyEsewaSignature resp.transaction_code
    resp.status resp.total_amount resp.transaction_uuid resp.product_code
    resp.signed_field_names resp.signature
  if isValidSignature = false then .error .invalidSignature
  else
    match findOrderByUuid db.orders resp.transaction_uuid with
    | none => .error .orderNotFound
    | some order =>
      match statusCheck with
      | some statusResponse =>
        if resp.status = "COMPLETE" ∧ statusResponse.status = "COMPLETE" then
          match reduceStockForOrder db.products order.items with
          | .error e => .error e
          | .ok products1 =>
            let order1 := { order with
              paymentStatus := PaymentStatus.PAID
              orderStatus := OrderStatus.CONFIRMED
              esewaTransactionCode := some resp.transaction_code
              esewaRefId := statusResponse.ref_id
              esewaSignature := some resp.signature }
            let carts1 :=
              match findCart db.carts order.userInfo.userId with
              | some cart => saveCart db.carts { cart with items := [] }
              | none => db.carts
            .ok ({ products := products1, carts := carts1,
                   orders := saveOrder db.orders order1 }, order1)
        else
          let order1 := { order with
            paymentStatus := PaymentStatus.FAILED
            orderStatus := OrderStatus.CANCELLED }
          .ok ({ db with orders := saveOrder db.orders order1 }, order1)
      | none =>
        if resp.status = "COMPLETE" then
          match reduceStockForOrder db.products order.items with
          | .error e => .error e
          | .ok products1 =>
            let order1 := { order with
              paymentStatus := PaymentStatus.PAID
              orderStatus := OrderStatus.CONFIRMED
              esewaTransactionCode := some resp.transaction_code
              esewaSignature := some resp.signature }
            let carts1 :=
              match findCart db.carts order.userInfo.userId with
              | some cart => saveCart db.carts { cart with items := [] }
              | none => db.carts
            .ok ({ products := products1, carts := carts1,
                   orders := saveOrder db.orders order1 }, order1)
        else
          let order1 := { order with
            paymentStatus := PaymentStatus.FAILED
            orderStatus := OrderStatus.CANCELLED }
          .ok ({ db with orders := saveOrder db.orders order1 }, order1)

/-- handleEsewaFailure (src/src/controller/Order.ts lines 340-364): when
a non-empty transaction_uuid query parameter is present and an order
with that uuid exists, set paymentStatus FAILED and orderStatus
CANCELLED unconditionally; the handler never errors. -/
def handleEsewaFailure (db : DB) (transactionUuid : Option String) : DB :=
  match transactionUuid with
  | none => db
  | some uuid =>
    if uuid = "" then db
    else
      match findOrderByUuid db.orders uuid with
      | none => db
      | some order =>
        let order1 := { order with
          paymentStatus := PaymentStatus.FAILED
          orderStatus := OrderStatus.CANCELLED }
        { db with orders := saveOrder db.orders order1 }

/-- Parse of a raw status string against the validStatuses list of
updateOrderStatus: some when the string is one of the four valid
values, none otherwise. -/
def OrderStatus.ofString : String → Option OrderStatus
  | "PENDING" => some OrderStatus.PENDING
  | "CONFIRMED" => some OrderStatus.CONFIRMED
  | "DELIVERED" => some OrderStatus.DELIVERED
  | "CANCELLED" => some OrderStatus.CANCELLED
  | _ => none

/-- updateOrderStatus (src/src/controller/Order.ts lines 367-412):
reject a status string outside validStatuses without touching anything;
otherwise find the order, set orderStatus to the requested value with
no transition check, set paymentStatus PAID when a CASH_ON_DELIVERY
order is set DELIVERED, set paymentStatus FAILED when the order is set
CANCELLED while paymentStatus is still PENDING, and save. The handler
never touches products or carts. -/
def updateOrderStatus (db : DB) (orderId : Nat) (orderStatus : String) :
    Except ApiError (DB × Order) :=
  match OrderStatus.ofString orderStatus with
  | none => .error .invalidOrderStatus
  | some newStatus =>
    match findOrder db.orders orderId with
    | none => .error .orderNotFound
    | some order =>
      let o1 := { order with orderStatus := newStatus }
      let o2 :=
        if o1.paymentMethod = PaymentMethod.CASH_ON_DELIVERY ∧
            newStatus = OrderStatus.DELIVERED then
          { o1 with paymentStatus := PaymentStatus.PAID }
        else o1
      let o3 :=
        if newStatus = OrderStatus.CANCELLED ∧
            o2.paymentStatus = PaymentStatus.PENDING then
          { o2 with paymentStatus := PaymentStatus.FAILED }
        else o2
      .ok ({ db with orders := saveOrder db.orders o3 }, o3)

/-- checkPaymentStatus (src/src/controller/Order.ts lines 415-478): for
an ESEWA order carrying a transaction uuid, poll the gateway; a
COMPLETE answer sets PAID/CONFIRMED and records the ref id, PENDING
resets paymentStatus to PENDING, CANCELED or NOT_FOUND sets
FAILED/CANCELLED, any other answer leaves the order as it was; a
failed poll returns the last known local state without saving. -/
def checkPaymentStatus (db : DB) (orderId : Nat)
    (statusCheck : Option EsewaStatusResponse) :
    Except ApiError (DB × Order) :=
  match findOrder db.orders orderId with
  | none => .error .orderNotFound
  | some order =>
    if order.paymentMethod = PaymentMethod.ESEWA ∧
        order.esewaTransactionUuid.isSome then
      match statusCheck with
      | none => .ok (db, order)
      | some statusResponse =>
        let o1 :=
          if statusResponse.status = "COMPLETE" then
            { order with
              paymentStatus := PaymentStatus.PAID
              orderStatus := OrderStatus.CONFIRMED
              esewaRefId := statusResponse.ref_id }
          else if statusResponse.status = "PENDING" then
            { order with paymentStatus := PaymentStatus.PENDING }
          else if statusResponse.status = "CANCELED" ∨
              statusResponse.status = "NOT_FOUND" then
            { order with
              paymentStatus := PaymentStatus.FAILED
              orderStatus := OrderStatus.CANCELLED }
          else order
        .ok ({ db with orders := saveOrder db.orders o1 }, o1)
    else .ok (db, order)

/-! ## Cart controller (src/src/controller/Cart.ts) -/

/-- Request body of addToCart (userId, productId, quantity defaulted
to 1 by the destructuring). -/
structure AddToCartRequest where
  userId : String
  productId : Nat
  quantity : Int
deriving Repr, DecidableEq

/-- In-place quantity bump of the first cart line matching the product,
as the findIndex-then-assign of addToCart does. -/
def bumpCartItem (items : List CartItem) (productId : Nat) (quantity : Int) :
    List CartItem :=
  match items with
  | [] => []
  | item :: rest =>
    if item.product = productId then
      { item with quantity := item.quantity + quantity } :: rest
    else item :: bumpCartItem rest productId quantity

/-- addToCart (src/src/controller/Cart.ts lines 8-79): validate the
request and the stock, find or lazily create the cart, bump the
existing line or push a new one snapshotting price, name and image,
then save the cart (running the pre-save hook). -/
def addToCart (db : DB) (req : AddToCartRequest) :
    Except ApiError (DB × Cart) :=
  if req.userId = "" then .error .userIdRequired
  else if req.quantity < 1 then .error .invalidQuantity
  else
    match findProduct db.products req.productId with
    | none => .error (.productNotFound "")
    | some product =>
      if product.stock < req.quantity then .error .insufficientStockForCart
      else
        let cart := (findCart db.carts req.userId).getD
          { userId := req.userId, items := [], totalAmount := 0 }
        match cart.items.find? (fun item => item.product = req.productId) with
        | some existingItem =>
          if product.stock < existingItem.quantity + req.quantity then
            .error .insufficientStockForCart
          else
            let cart1 := { cart with
              items := bumpCartItem cart.items req.productId req.quantity }
            .ok ({ db with carts := saveCart db.carts cart1 },
              applyCartPreSaveHook cart1)
        | none =>
          let newItem : CartItem :=
            { product := req.productId
              quantity := req.quantity
              price := product.price
              name := product.name
              image := product.mainImage }
          let cart1 := { cart with items := cart.items ++ [newItem] }
          .ok ({ db with carts := saveCart db.carts cart1 },
            applyCartPreSaveHook cart1)

/-- Removal of the first cart line matching the product, as the
findIndex-then-splice of updateCartItem and removeFromCart does. -/
def removeCartItem (items : List CartItem) (productId : Nat) :
    List CartItem :=
  match items with
  | [] => []
  | item :: rest =>
    if item.product = productId then rest
    else item :: removeCartItem rest productId

/-- Quantity overwrite of the first cart line matching the product, as
the findIndex-then-assign of updateCartItem does. -/
def setCartItemQuantity (items : List CartItem) (productId : Nat)
    (quantity : Int) : List CartItem :=
  match items with
  | [] => []
  | item :: rest =>
    if item.product = productId then
      { item with quantity := quantity } :: rest
    else item :: setCartItemQuantity rest productId quantity

/-- updateCartItem (src/src/controller/Cart.ts lines 143-200): validate
the request (a negative quantity is rejected; the embedding always
receives a quantity, matching a defined req.body.quantity), find the
cart and the line; quantity zero splices the line out, a positive
quantity is checked against the product stock and overwritten; then the
cart is saved through the pre-save hook. -/
def updateCartItem (db : DB) (userId : String) (productId : Nat)
    (quantity : Int) : Except ApiError (DB × Cart) :=
  if userId = "" then .error .userIdRequired
  else if quantity < 0 then .error .invalidQuantity
  else
    match findCart db.carts userId with
    | none => .error .cartNotFound
    | some cart =>
      if (cart.items.find? (fun item => item.product = productId)).isNone then
        .error .itemNotFound
      else if quantity = 0 then
        let cart1 := { cart with items := removeCartItem cart.items productId }
        .ok ({ db with carts := saveCart db.carts cart1 },
          applyCartPreSaveHook cart1)
      else
        match findProduct db.products productId with
        | none => .error (.productNotFound "")
        | some product =>
          if product.stock < quantity then .error .insufficientStockForCart
          else
            let cart1 := { cart with
              items := setCartItemQuantity cart.items productId quantity }
            .ok ({ db with carts := saveCart db.carts cart1 },
              applyCartPreSaveHook cart1)

/-- removeFromCart (src/src/controller/Cart.ts lines 202-240): find the
cart and the line, splice the line out and save the cart through the
pre-save hook. -/
def removeFromCart (db : DB) (userId : String) (productId : Nat) :
    Except ApiError (DB × Cart) :=
  if userId = "" then .error .userIdRequired
  else
    match findCart db.carts userId with
    | none => .error .cartNotFound
    | some cart =>
      if (cart.items.find? (fun item => item.product = productId)).isNone then
        .error .itemNotFound
      else
        let cart1 := { cart with items := removeCartItem cart.items productId }
        .ok ({ db with carts := saveCart db.carts cart1 },
          applyCartPreSaveHook cart1)

/-- clearCart (src/src/controller/Cart.ts lines 242-273): a missing cart
answers that it is already empty without saving anything; an existing
cart has its items emptied and is saved through the pre-save hook. -/
def clearCart (db : DB) (userId : String) :
    Except ApiError (DB × Option Cart) :=
  if userId = "" then .error .userIdRequired
  else
    match findCart db.carts userId with
    | none => .ok (db, none)
    | some cart =>
      let cart1 := { cart with items := ([] : List CartItem) }
      .ok ({ db with carts := saveCart db.carts cart1 },
        some (applyCartPreSaveHook cart1))

/-! ## Driver semantics: the committed state a handler leaves behind -/

/-- Committed state of createOrderFromCart: an aborted transaction
leaves the database unchanged. -/
def runCreateOrderFromCart (db : DB) (req : CreateOrderRequest)
    (newOrderId timestamp randomDraw : Nat) : DB :=
  match createOrderFromCart db req newOrderId timestamp randomDraw with
  | .ok (db1, _, _) => db1
  | .error _ => db

/-- Committed state of handleEsewaSuccess: an aborted transaction
leaves the database unchanged. -/
def runEsewaSuccess (db : DB) (resp : EsewaPaymentResponse)
    (statusCheck : Option EsewaStatusResponse) : DB :=
  match handleEsewaSuccess db resp statusCheck with
  | .ok (db1, _) => db1
  | .error _ => db

/-- Committed state of updateOrderStatus. -/
def runUpdateOrderStatus (db : DB) (orderId : Nat) (orderStatus : String) : DB :=
  match updateOrderStatus db orderId orderStatus with
  | .ok (db1, _) => db1
  | .error _ => db

/-- Stock of a product as stored in the database. -/
def productStock (db : DB) (pid : Nat) : Option Int :=
  (findProduct db.products pid).map (fun p => p.stock)

/-- paymentStatus of an order as stored in the database. -/
def orderPaymentStatus (db : DB) (oid : Nat) : Option PaymentStatus :=
  (findOrder db.orders oid).map (fun o => o.paymentStatus)

/-- orderStatus of an order as stored in the database. -/
def orderStatusOf (db : DB) (oid : Nat) : Option OrderStatus :=
  (findOrder db.orders oid).map (fun o => o.orderStatus)

/-! ## Concrete scenario used by the counterexample and witness theorems -/

namespace Scenario

/-- Catalog product with ten units in stock. -/
def widget : Product :=
  { id := 1, name := "Widget", price := 50, stock := 10, mainImage := "w.png" }

/-- Delivery address passing the completeness validation. -/
def address1 : DeliveryAddress :=
  { fullName := "Asha Rai"
    phoneNumber := "9800000000"
    address := "Main Street 5"
    city := "Kathmandu"
    postalCode := none }

/-- Cart of owner u1 holding two widgets. -/
def cart1 : Cart :=
  { userId := "u1"
    items := [{ product := 1, quantity := 2, price := 50,
                name := "Widget", image := "w.png" }]
    totalAmount := 100 }

/-- Pending ESEWA order for two widgets, awaiting its callback. -/
def esewaOrder : Order :=
  { id := 7
    userInfo := { userId := "u1", username := "asha" }
    items := [{ product := 1, quantity := 2, price := 50 }]
    deliveryAddress := address1
    paymentMethod := PaymentMethod.ESEWA
    paymentStatus := PaymentStatus.PENDING
    orderStatus := OrderStatus.PENDING
    totalAmount := 100
    taxAmount := 10
    deliveryCharge := 5
    grandTotal := 115
    esewaTransactionUuid := some "TXN-1700000000000-0042"
    esewaTransactionCode := none
    esewaRefId := none
    esewaSignature := none
    notes := none }

/-- Database holding the widget, the cart of u1 and the pending ESEWA
order. -/
def pendingDb : DB :=
  { products := [widget], carts := [cart1], orders := [esewaOrder] }

/-- signed_field_names value eSewa sends on its success callback. -/
def callbackFieldNames : String :=
  "transaction_code,status,total_amount,transaction_uuid,product_code,signed_field_names"

/-- COMPLETE success-callback payload for the pending order, carrying
the signature the active verifyEsewaSignature expects for it. -/
def completeCallback : EsewaPaymentResponse :=
  { transaction_code := "000AWEO"
    status := "COMPLETE"
    total_amount := "115"
    transaction_uuid := "TXN-1700000000000-0042"
    product_code := "EPAYTEST"
    signed_field_names := callbackFieldNames
    signature := hmacSha256 (jsTrim SECRET_KEY)
      (esewaVerifyMessage "000AWEO" "COMPLETE" "115" "TXN-1700000000000-0042"
        "EPAYTEST" callbackFieldNames) }

/-- Gateway status-check answer confirming the payment. -/
def statusComplete : EsewaStatusResponse :=
  { status := "COMPLETE", ref_id := some "REF1" }

/-- Same catalog product with a single unit left in stock. -/
def scarceWidget : Product := { widget with stock := 1 }

/-- Database where the pending two-widget ESEWA order can no longer be
covered by stock. -/
def scarceDb : DB :=
  { products := [scarceWidget], carts := [cart1], orders := [esewaOrder] }

/-- The ESEWA order after a successful confirmation. -/
def paidOrder : Order :=
  { esewaOrder with
    paymentStatus := PaymentStatus.PAID
    orderStatus := OrderStatus.CONFIRMED
    esewaTransactionCode := some "000AWEO"
    esewaRefId := some "REF1"
    esewaSignature := some completeCallback.signature }

/-- Database holding the already-PAID ESEWA order. -/
def paidDb : DB :=
  { products := [{ widget with stock := 8 }], carts := [{ cart1 with items := [], totalAmount := 0 }],
    orders := [paidOrder] }

/-- Confirmed CASH_ON_DELIVERY order for two widgets; the creation
already decremented the stock from 10 to 8. -/
def codOrder : Order :=
  { id := 9
    userInfo := { userId := "u1", username := "asha" }
    items := [{ product := 1, quantity := 2, price := 50 }]
    deliveryAddress := address1
    paymentMethod := PaymentMethod.CASH_ON_DELIVERY
    paymentStatus := PaymentStatus.PENDING
    orderStatus := OrderStatus.CONFIRMED
    totalAmount := 100
    taxAmount := 10
    deliveryCharge := 5
    grandTotal := 115
    esewaTransactionUuid := none
    esewaTransactionCode := none
    esewaRefId := none
    esewaSignature := none
    notes := none }

/-- Database after the COD creation: stock 8, cart cleared, order
CONFIRMED. -/
def codDb : DB :=
  { products := [{ widget with stock := 8 }]
    carts := [{ cart1 with items := [], totalAmount := 0 }]
    orders := [codOrder] }

/-- The COD order once delivered (a terminal state per the spec). -/
def deliveredOrder : Order :=
  { codOrder with
    orderStatus := OrderStatus.DELIVERED
    paymentStatus := PaymentStatus.PAID }

/-- Database holding the delivered COD order. -/
def deliveredDb : DB :=
  { products := [{ widget with stock := 8 }]
    carts := [{ cart1 with items := [], totalAmount := 0 }]
    orders := [deliveredOrder] }

/-- Second catalog product, nearly out of stock. -/
def gadget : Product :=
  { id := 2, name := "Gadget", price := 30, stock := 1, mainImage := "g.png" }

/-- Three-line cart whose middle item requests five gadgets while only
one is in stock. -/
def threeItemCart : Cart :=
  { userId := "u1"
    items := [
      { product := 1, quantity := 2, price := 50, name := "Widget", image := "w.png" },
      { product := 2, quantity := 5, price := 30, name := "Gadget", image := "g.png" },
      { product := 1, quantity := 1, price := 50, name := "Widget", image := "w.png" }]
    totalAmount := 300 }

/-- Database for the atomic-failure scenario: both products, the
three-line cart, no orders yet. -/
def threeItemDb : DB :=
  { products := [widget, gadget], carts := [threeItemCart], orders := [] }

/-- Valid COD create-order request of owner u1. -/
def codRequest : CreateOrderRequest :=
  { userId := "u1"
    username := "asha"
    deliveryAddress := some address1
    paymentMethod := "CASH_ON_DELIVERY"
    taxAmount := 10
    deliveryCharge := 5
    notes := none }

/-- Valid ESEWA create-order request of owner u1. -/
def esewaRequest : CreateOrderRequest :=
  { codRequest with paymentMethod := "ESEWA" }

/-- Database for the gateway-creation scenario: the widget, the cart of
u1, no orders yet. -/
def freshDb : DB :=
  { products := [widget], carts := [cart1], orders := [] }

/-- signed_field_names permutation differing from the declared build
order. -/
def reorderedFieldNames : String := "product_code,total_amount,transaction_uuid"

/-- Payment form the build function produces for the scenario amounts. -/
def roundtripPd : EsewaPaymentData :=
  prepareEsewaPaymentData 100 10 5 "TXN-1700000000000-0042" MERCHANT_CODE

/-- Add-to-cart request bumping the existing widget line by one. -/
def addReq : AddToCartRequest :=
  { userId := "u1", productId := 1, quantity := 1 }

/-- Cart of u1 after the bump: three widgets, recomputed total. -/
def bumpedCart : Cart :=
  { userId := "u1"
    items := [{ product := 1, quantity := 3, price := 50,
                name := "Widget", image := "w.png" }]
    totalAmount := 150 }

/-- Database after the bump has been saved. -/
def bumpedDb : DB :=
  { products := [widget], carts := [bumpedCart], orders := [] }

end Scenario

/-- Order document the gateway branch of createOrderFromCart persists,
as the spec describes it: PENDING/PENDING, a fresh correlation id,
immutable totals; named so the frame theorem can state the committed
state in one refinement equation. -/
def esewaOrderOf (req : CreateOrderRequest) (addr : DeliveryAddress)
    (totalAmount : Int) (validatedItems : List OrderItem)
    (newOrderId timestamp randomDraw : Nat) : Order :=
  { id := newOrderId
    userInfo := { userId := req.userId, username := req.username }
    items := validatedItems
    deliveryAddress := addr
    paymentMethod := PaymentMethod.ESEWA
    paymentStatus := PaymentStatus.PENDING
    orderStatus := OrderStatus.PENDING
    totalAmount := totalAmount
    taxAmount := req.taxAmount
    deliveryCharge := req.deliveryCharge
    grandTotal := totalAmount + req.taxAmount + req.deliveryCharge
    esewaTransactionUuid := some (generateTransactionUuid timestamp randomDraw)
    esewaTransactionCode := none
    esewaRefId := none
    esewaSignature := none
    notes := req.notes }

/-- Order document updateOrderStatus writes back, as the amended claim
describes it: the requested status is stored regardless of the current
one, paymentStatus becomes PAID for a delivered COD order and FAILED
for a cancellation while payment was still PENDING, every other field
is untouched. -/
def updatedOrderSpec (order : Order) (t : OrderStatus) : Order :=
  { order with
    orderStatus := t
    paymentStatus :=
      if order.paymentMethod = PaymentMethod.CASH_ON_DELIVERY ∧
          t = OrderStatus.DELIVERED then PaymentStatus.PAID
      else if t = OrderStatus.CANCELLED ∧
          order.paymentStatus = PaymentStatus.PENDING then PaymentStatus.FAILED
      else order.paymentStatus }

/-- totalAmount-correctness of a stored cart: what the pre-save hook is
meant to guarantee for every cart in the database. -/
def CartsInvariant (db : DB) : Prop :=
  ∀ c ∈ db.carts, c.totalAmount = cartTotal c.items

/-- Non-negativity of every stored stock count: what the stock validator
of ProductSchema guarantees for every committed state. -/
def StockInvariant (db : DB) : Prop :=
  ∀ p ∈ db.products, 0 ≤ p.stock

set_option maxRecDepth 100000

section ClaimTheorems

open Scenario

/-- Membership in a saved cart list: every document either was already
stored or is the just-saved cart with the pre-save hook applied. -/
theorem mem_saveCart {carts : List Cart} {c c' : Cart}
    (h : c' ∈ saveCart carts c) :
    c' ∈ carts ∨ c' = applyCartPreSaveHook c := by
  simp only [saveCart] at h
  by_cases hf :
      (carts.find? (fun d => d.userId = (applyCartPreSaveHook c).userId)).isSome
  · rw [if_pos hf] at h
    simp only [List.mem_map] at h
    obtain ⟨d, hd, hdc⟩ := h
    by_cases hid : d.userId = (applyCartPreSaveHook c).userId
    · right
      rw [if_pos hid] at hdc
      exact hdc.symm
    · left
      rw [if_neg hid] at hdc
      exact hdc ▸ hd
  · rw [if_neg hf] at h
    rcases List.mem_append.mp h with h1 | h1
    · exact Or.inl h1
    · right
      simpa using h1

/-- CartsInvariant survives any step whose cart collection is either
untouched or the result of one cart save. -/
theorem cartsInvariant_of_shape {db db1 : DB} (h : CartsInvariant db)
    (hs : db1.carts = db.carts ∨ ∃ cnew, db1.carts = saveCart db.carts cnew) :
    CartsInvariant db1 := by
  intro c hc
  rcases hs with hs | ⟨cnew, hs⟩
  · exact h c (hs ▸ hc)
  · rw [hs] at hc
    rcases mem_saveCart hc with h1 | h1
    · exact h c h1
    · rw [h1]
      rfl

/-- addToCart commits exactly one cart save and answers with the saved
document. -/
theorem addToCart_carts_shape {db db1 : DB} {req : AddToCartRequest}
    {cartOut : Cart} (h : addToCart db req = .ok (db1, cartOut)) :
    ∃ cnew, db1.carts = saveCart db.carts cnew
      ∧ cartOut = applyCartPreSaveHook cnew := by
  simp only [addToCart] at h
  split at h
  · exact Except.noConfusion h
  · split at h
    · exact Except.noConfusion h
    · split at h
      · exact Except.noConfusion h
      · split at h
        · exact Except.noConfusion h
        · split at h
          · split at h
            · exact Except.noConfusion h
            · simp only [Except.ok.injEq, Prod.mk.injEq] at h
              obtain ⟨h1, h2⟩ := h
              exact ⟨_, by rw [← h1], h2.symm⟩
          · simp only [Except.ok.injEq, Prod.mk.injEq] at h
            obtain ⟨h1, h2⟩ := h
            exact ⟨_, by rw [← h1], h2.symm⟩

/-- createOrderFromCart either leaves the cart collection alone (error
paths and the gateway branch) or commits exactly one cart save (the COD
clear). -/
theorem createOrder_carts_shape {db db1 : DB} {req : CreateOrderRequest}
    {a b c : Nat} {order : Order} {pd : Option EsewaPaymentData}
    (h : createOrderFromCart db req a b c = .ok (db1, order, pd)) :
    db1.carts = db.carts ∨ ∃ cnew, db1.carts = saveCart db.carts cnew := by
  simp only [createOrderFromCart] at h
  split at h
  · exact Except.noConfusion h
  · split at h
    · exact Except.noConfusion h
    · split at h
      · exact Except.noConfusion h
      · split at h
        · exact Except.noConfusion h
        · split at h
          · exact Except.noConfusion h
          · split at h
            · exact Except.noConfusion h
            · split at h
              · exact Except.noConfusion h
              · split at h
                · split at h
                  · exact Except.noConfusion h
                  · simp only [Except.ok.injEq, Prod.mk.injEq] at h
                    obtain ⟨h1, h2⟩ := h
                    right
                    exact ⟨_, by rw [← h1]⟩
                · simp only [Except.ok.injEq, Prod.mk.injEq] at h
                  obtain ⟨h1, h2⟩ := h
                  left
                  rw [← h1]

/-- handleEsewaSuccess either leaves the cart collection alone (error
and failure branches, or no cart found) or commits exactly one cart
save (the clear of the success branch). -/
theorem esewaSuccess_carts_shape {db db1 : DB} {resp : EsewaPaymentResponse}
    {sc : Option EsewaStatusResponse} {order : Order}
    (h : handleEsewaSuccess db resp sc = .ok (db1, order)) :
    db1.carts = db.carts ∨ ∃ cnew, db1.carts = saveCart db.carts cnew := by
  simp only [handleEsewaSuccess] at h
  split at h
  · exact Except.noConfusion h
  · split at h
    · exact Except.noConfusion h
    · split at h
      · split at h
        · split at h
          · exact Except.noConfusion h
          · split at h
            · simp only [Except.ok.injEq, Prod.mk.injEq] at h
              obtain ⟨h1, h2⟩ := h
              right
              exact ⟨_, by rw [← h1]⟩
            · simp only [Except.ok.injEq, Prod.mk.injEq] at h
              obtain ⟨h1, h2⟩ := h
              left
              rw [← h1]
        · simp only [Except.ok.injEq, Prod.mk.injEq] at h
          obtain ⟨h1, h2⟩ := h
          left
          rw [← h1]
      · split at h
        · split at h
          · exact Except.noConfusion h
          · split at h
            · simp only [Except.ok.injEq, Prod.mk.injEq] at h
              obtain ⟨h1, h2⟩ := h
              right
              exact ⟨_, by rw [← h1]⟩
            · simp only [Except.ok.injEq, Prod.mk.injEq] at h
              obtain ⟨h1, h2⟩ := h
              left
              rw [← h1]
        · simp only [Except.ok.injEq, Prod.mk.injEq] at h
          obtain ⟨h1, h2⟩ := h
          left
          rw [← h1]

/-- A save accepted by the stock validator keeps every stored stock
non-negative. -/
theorem saveProduct_stock_nonneg {products ps : List Product} {p : Product}
    (h0 : ∀ q ∈ products, 0 ≤ q.stock)
    (h : saveProduct products p = .ok ps) :
    ∀ q ∈ ps, 0 ≤ q.stock := by
  simp only [saveProduct] at h
  split at h
  · exact Except.noConfusion h
  · rename_i hp
    simp only [Except.ok.injEq] at h
    subst h
    intro q hq
    simp only [List.mem_map] at hq
    obtain ⟨r, hr, hrq⟩ := hq
    by_cases hid : r.id = p.id
    · rw [if_pos hid] at hrq
      rw [← hrq]
      exact not_lt.mp hp
    · rw [if_neg hid] at hrq
      rw [← hrq]
      exact h0 r hr

/-- A decrement loop over order items that commits (every save passed
the validator) keeps every stored stock non-negative. -/
theorem reduceStockForOrder_stock_nonneg {products ps : List Product}
    {items : List OrderItem}
    (h0 : ∀ q ∈ products, 0 ≤ q.stock)
    (h : reduceStockForOrder products items = .ok ps) :
    ∀ q ∈ ps, 0 ≤ q.stock := by
  induction items generalizing products with
  | nil =>
    simp only [reduceStockForOrder, Except.ok.injEq] at h
    subst h
    exact h0
  | cons item rest ih =>
    simp only [reduceStockForOrder] at h
    split at h
    · split at h
      · exact Except.noConfusion h
      · rename_i ps1 hsave
        exact ih (saveProduct_stock_nonneg h0 hsave) h
    · exact ih h0 h

/-- A decrement loop over cart items that commits keeps every stored
stock non-negative. -/
theorem reduceStockForCart_stock_nonneg {products ps : List Product}
    {items : List CartItem}
    (h0 : ∀ q ∈ products, 0 ≤ q.stock)
    (h : reduceStockForCart products items = .ok ps) :
    ∀ q ∈ ps, 0 ≤ q.stock := by
  induction items generalizing products with
  | nil =>
    simp only [reduceStockForCart, Except.ok.injEq] at h
    subst h
    exact h0
  | cons item rest ih =>
    simp only [reduceStockForCart] at h
    split at h
    · split at h
      · exact Except.noConfusion h
      · rename_i ps1 hsave
        exact ih (saveProduct_stock_nonneg h0 hsave) h
    · exact ih h0 h

/-- createOrderFromCart either leaves the product collection alone
(error paths and the gateway branch) or commits one accepted decrement
loop (the COD reservation). -/
theorem createOrder_products_shape {db db1 : DB} {req : CreateOrderRequest}
    {a b c : Nat} {order : Order} {pd : Option EsewaPaymentData}
    (h : createOrderFromCart db req a b c = .ok (db1, order, pd)) :
    db1.products = db.products
    ∨ ∃ items, reduceStockForCart db.products items = .ok db1.products := by
  simp only [createOrderFromCart] at h
  split at h
  · exact Except.noConfusion h
  · split at h
    · exact Except.noConfusion h
    · split at h
      · exact Except.noConfusion h
      · split at h
        · exact Except.noConfusion h
        · split at h
          · exact Except.noConfusion h
          · split at h
            · exact Except.noConfusion h
            · split at h
              · exact Except.noConfusion h
              · split at h
                · split at h
                  · exact Except.noConfusion h
                  · rename_i ps1 hred
                    simp only [Except.ok.injEq, Prod.mk.injEq] at h
                    obtain ⟨h1, h2⟩ := h
                    right
                    rw [← h1]
                    exact ⟨_, hred⟩
                · simp only [Except.ok.injEq, Prod.mk.injEq] at h
                  obtain ⟨h1, h2⟩ := h
                  left
                  rw [← h1]

/-- handleEsewaSuccess either leaves the product collection alone or
commits one accepted decrement loop (the confirmation of the success
branch). -/
theorem esewaSuccess_products_shape {db db1 : DB} {resp : EsewaPaymentResponse}
    {sc : Option EsewaStatusResponse} {order : Order}
    (h : handleEsewaSuccess db resp sc = .ok (db1, order)) :
    db1.products = db.products
    ∨ ∃ items, reduceStockForOrder db.products items = .ok db1.products := by
  simp only [handleEsewaSuccess] at h
  split at h
  · exact Except.noConfusion h
  · split at h
    · exact Except.noConfusion h
    · split at h
      · split at h
        · split at h
          · exact Except.noConfusion h
          · rename_i ps1 hred
            simp only [Except.ok.injEq, Prod.mk.injEq] at h
            obtain ⟨h1, h2⟩ := h
            right
            rw [← h1]
            exact ⟨_, hred⟩
        · simp only [Except.ok.injEq, Prod.mk.injEq] at h
          obtain ⟨h1, h2⟩ := h
          left
          rw [← h1]
      · split at h
        · split at h
          · exact Except.noConfusion h
          · rename_i ps1 hred
            simp only [Except.ok.injEq, Prod.mk.injEq] at h
            obtain ⟨h1, h2⟩ := h
            right
            rw [← h1]
            exact ⟨_, hred⟩
        · simp only [Except.ok.injEq, Prod.mk.injEq] at h
          obtain ⟨h1, h2⟩ := h
          left
          rw [← h1]

/-- updateOrderStatus never touches the product collection. -/
theorem updateOrderStatus_products_shape {db db1 : DB} {oid : Nat} {s : String}
    {o : Order} (h : updateOrderStatus db oid s = .ok (db1, o)) :
    db1.products = db.products := by
  simp only [updateOrderStatus] at h
  split at h
  · exact Except.noConfusion h
  · split at h
    · exact Except.noConfusion h
    · simp only [Except.ok.injEq, Prod.mk.injEq] at h
      obtain ⟨h1, h2⟩ := h
      rw [← h1]

/-- checkPaymentStatus never touches the product collection. -/
theorem checkPaymentStatus_products_shape {db db1 : DB} {oid : Nat}
    {sc : Option EsewaStatusResponse} {o : Order}
    (h : checkPaymentStatus db oid sc = .ok (db1, o)) :
    db1.products = db.products := by
  simp only [checkPaymentStatus] at h
  split at h
  · exact Except.noConfusion h
  · split at h
    · split at h
      · simp only [Except.ok.injEq, Prod.mk.injEq] at h
        obtain ⟨h1, h2⟩ := h
        rw [← h1]
      · simp only [Except.ok.injEq, Prod.mk.injEq] at h
        obtain ⟨h1, h2⟩ := h
        rw [← h1]
    · simp only [Except.ok.injEq, Prod.mk.injEq] at h
      obtain ⟨h1, h2⟩ := h
      rw [← h1]

/-- updateCartItem commits exactly one cart save and answers with the
saved document. -/
theorem updateCartItem_carts_shape {db db1 : DB} {userId : String}
    {productId : Nat} {quantity : Int} {cartOut : Cart}
    (h : updateCartItem db userId productId quantity = .ok (db1, cartOut)) :
    ∃ cnew, db1.carts = saveCart db.carts cnew
      ∧ cartOut = applyCartPreSaveHook cnew := by
  simp only [updateCartItem] at h
  split at h
  · exact Except.noConfusion h
  · split at h
    · exact Except.noConfusion h
    · split at h
      · exact Except.noConfusion h
      · split at h
        · exact Except.noConfusion h
        · split at h
          · simp only [Except.ok.injEq, Prod.mk.injEq] at h
            obtain ⟨h1, h2⟩ := h
            exact ⟨_, by rw [← h1], h2.symm⟩
          · split at h
            · exact Except.noConfusion h
            · split at h
              · exact Except.noConfusion h
              · simp only [Except.ok.injEq, Prod.mk.injEq] at h
                obtain ⟨h1, h2⟩ := h
                exact ⟨_, by rw [← h1], h2.symm⟩

/-- removeFromCart commits exactly one cart save and answers with the
saved document. -/
theorem removeFromCart_carts_shape {db db1 : DB} {userId : String}
    {productId : Nat} {cartOut : Cart}
    (h : removeFromCart db userId productId = .ok (db1, cartOut)) :
    ∃ cnew, db1.carts = saveCart db.carts cnew
      ∧ cartOut = applyCartPreSaveHook cnew := by
  simp only [removeFromCart] at h
  split at h
  · exact Except.noConfusion h
  · split at h
    · exact Except.noConfusion h
    · split at h
      · exact Except.noConfusion h
      · simp only [Except.ok.injEq, Prod.mk.injEq] at h
        obtain ⟨h1, h2⟩ := h
        exact ⟨_, by rw [← h1], h2.symm⟩

/-- clearCart either answers that the cart was already absent without
saving, or commits exactly one save of the emptied cart. -/
theorem clearCart_carts_shape {db db1 : DB} {userId : String}
    {cartOut : Option Cart}
    (h : clearCart db userId = .ok (db1, cartOut)) :
    (db1.carts = db.carts ∧ cartOut = none)
    ∨ ∃ cnew, db1.carts = saveCart db.carts cnew
        ∧ cartOut = some (applyCartPreSaveHook cnew) ∧ cnew.items = [] := by
  simp only [clearCart] at h
  split at h
  · exact Except.noConfusion h
  · split at h
    · simp only [Except.ok.injEq, Prod.mk.injEq] at h
      obtain ⟨h1, h2⟩ := h
      exact Or.inl ⟨by rw [← h1], h2.symm⟩
    · simp only [Except.ok.injEq, Prod.mk.injEq] at h
      obtain ⟨h1, h2⟩ := h
      exact Or.inr ⟨_, by rw [← h1], h2.symm, rfl⟩

/-- C1: the claim states that replaying the identical success callback
against an already-PAID order leaves the final state identical and
decrements stock only once, because the handler checks the current
paymentStatus and short-circuits. The code has no such check: after the
first application the order is PAID and the widget stock fell from 10
to 8, and applying the very same payload again drives the stock to 6 —
the replay decrements a second time. -/
theorem esewaSuccess_replay_decrements_stock_twice :
    orderPaymentStatus
      (runEsewaSuccess pendingDb completeCallback (some statusComplete)) 7 =
      some PaymentStatus.PAID
    ∧ productStock
      (runEsewaSuccess pendingDb completeCallback (some statusComplete)) 1 =
      some 8
    ∧ productStock
      (runEsewaSuccess
        (runEsewaSuccess pendingDb completeCallback (some statusComplete))
        completeCallback (some statusComplete)) 1 = some 6 :=
  ⟨rfl, rfl, rfl⟩

/-- C2 counterexample: the claim states that every stock decrement is
immediately preceded, inside the same atomic unit, by a check that the
current stock covers the quantity. The success callback performs no
such check: confirming the pending two-widget order while one widget is
in stock reaches the decrement loop, which computes the negative write
and only fails when the save-time stock validator rejects it; the
handler then aborts with the validation error (stock minus one at
product 1) instead of any availability-check outcome, leaving the order
PENDING and the stock at 1. -/
theorem esewaSuccess_unchecked_decrement_aborts :
    reduceStockForOrder scarceDb.products esewaOrder.items =
      .error (ApiError.validationFailed 1 (-1))
    ∧ handleEsewaSuccess scarceDb completeCallback (some statusComplete) =
      .error (ApiError.validationFailed 1 (-1))
    ∧ runEsewaSuccess scarceDb completeCallback (some statusComplete) = scarceDb
    ∧ productStock scarceDb 1 = some 1
    ∧ orderPaymentStatus scarceDb 7 = some PaymentStatus.PENDING :=
  ⟨rfl, rfl, rfl, rfl, rfl⟩

/-- C2 amended: committed Product.stock never becomes negative across
the core operations — order creation, the gateway success callback, the
manual status update and the status poll each preserve non-negativity
of every stored stock — but not because every decrement is preceded by
an availability check: creation does check inside its transaction,
while the success callback decrements unchecked and it is the schema
stock validator rejecting the save that aborts the transaction and
keeps the committed state non-negative. -/
theorem stock_never_negative (db : DB) (h : StockInvariant db) :
    (∀ req newOrderId timestamp randomDraw,
      StockInvariant (runCreateOrderFromCart db req newOrderId timestamp randomDraw))
    ∧ (∀ resp statusCheck,
      StockInvariant (runEsewaSuccess db resp statusCheck))
    ∧ (∀ orderId s, StockInvariant (runUpdateOrderStatus db orderId s))
    ∧ (∀ orderId statusCheck db1 o,
      checkPaymentStatus db orderId statusCheck = .ok (db1, o) →
      StockInvariant db1) := by
  refine ⟨?_, ?_, ?_, ?_⟩
  · intro req newOrderId timestamp randomDraw
    unfold runCreateOrderFromCart
    split
    · rename_i db1 order pd heq
      rcases createOrder_products_shape heq with hs | ⟨items, hs⟩
      · intro p hp
        exact h p (hs ▸ hp)
      · exact fun p hp => reduceStockForCart_stock_nonneg h hs p hp
    · exact h
  · intro resp statusCheck
    unfold runEsewaSuccess
    split
    · rename_i db1 order heq
      rcases esewaSuccess_products_shape heq with hs | ⟨items, hs⟩
      · intro p hp
        exact h p (hs ▸ hp)
      · exact fun p hp => reduceStockForOrder_stock_nonneg h hs p hp
    · exact h
  · intro orderId s
    unfold runUpdateOrderStatus
    split
    · rename_i db1 order heq
      intro p hp
      exact h p (updateOrderStatus_products_shape heq ▸ hp)
    · exact h
  · intro orderId statusCheck db1 o heq
    intro p hp
    exact h p (checkPaymentStatus_products_shape heq ▸ hp)

/-- Witness for the amended C2: the scarce database (stock 1) satisfies
the non-negativity invariant after the COMPLETE success callback that
attempts the uncovered decrement. -/
theorem stock_never_negative_witness :
    StockInvariant
      (runEsewaSuccess scarceDb completeCallback (some statusComplete)) :=
  (stock_never_negative scarceDb (by unfold StockInvariant; decide)).2.1
    completeCallback (some statusComplete)

/-- C3: the claim states that verifyEsewaSignature reconstructs its
message in the exact order listed in the supplied signedFieldNames. The
active revision (src/src/utils/Esewa.ts) interpolates the six fields in
one hardcoded template regardless of the supplied list, as the first
equation shows for a reordered list; the revision kept in
src/unnamed/part_000 does follow the supplied order, as the second
equation shows on the same input. -/
theorem verifyMessage_ignores_supplied_field_order :
    esewaVerifyMessage "000AWEO" "COMPLETE" "115" "TXN-1700000000000-0042"
        "EPAYTEST" reorderedFieldNames =
      "transaction_code=000AWEO,status=COMPLETE,total_amount=115,transaction_uuid=TXN-1700000000000-0042,product_code=EPAYTEST,signed_field_names=product_code,total_amount,transaction_uuid"
    ∧ Rev0.verifyMessage "000AWEO" "COMPLETE" "115" "TXN-1700000000000-0042"
        "EPAYTEST" reorderedFieldNames =
      "product_code=EPAYTEST,total_amount=115,transaction_uuid=TXN-1700000000000-0042" :=
  ⟨rfl, rfl⟩

/-- C4: the claim states the signing round-trip: verification accepts
the signature the build function produced, with the same values and the
declared field order, and rejects any alteration. The active
verifyEsewaSignature rejects even the unaltered build output (first
equation), because it hashes a hardcoded six-field message while the
build signed the declared three fields; the src/unnamed/part_000
revision accepts the unaltered output and rejects an altered amount and
an altered field order. -/
theorem signature_roundtrip_fails_on_active_verify :
    verifyEsewaSignature "000AWEO" "COMPLETE" roundtripPd.total_amount
      roundtripPd.transaction_uuid roundtripPd.product_code
      roundtripPd.signed_field_names roundtripPd.signature = false
    ∧ Rev0.verifyEsewaSignature "000AWEO" "COMPLETE" roundtripPd.total_amount
      roundtripPd.transaction_uuid roundtripPd.product_code
      roundtripPd.signed_field_names roundtripPd.signature = true
    ∧ Rev0.verifyEsewaSignature "000AWEO" "COMPLETE" "116"
      roundtripPd.transaction_uuid roundtripPd.product_code
      roundtripPd.signed_field_names roundtripPd.signature = false
    ∧ Rev0.verifyEsewaSignature "000AWEO" "COMPLETE" roundtripPd.total_amount
      roundtripPd.transaction_uuid roundtripPd.product_code
      reorderedFieldNames roundtripPd.signature = false :=
  ⟨rfl, rfl, rfl, rfl⟩

/-- C5: the claim states that once paymentStatus is PAID no later core
operation changes it. The failure redirect handler sets FAILED and
CANCELLED unconditionally: applied to the already-PAID order it flips
the stored paymentStatus from PAID to FAILED. -/
theorem esewaFailure_overwrites_paid :
    orderPaymentStatus paidDb 7 = some PaymentStatus.PAID
    ∧ orderPaymentStatus
      (handleEsewaFailure paidDb (some "TXN-1700000000000-0042")) 7 =
      some PaymentStatus.FAILED
    ∧ orderStatusOf
      (handleEsewaFailure paidDb (some "TXN-1700000000000-0042")) 7 =
      some OrderStatus.CANCELLED :=
  ⟨rfl, rfl, rfl⟩

/-- C9: the claim states that cancelling a CASH_ON_DELIVERY order after
its stock was decremented at creation releases the stock. The manual
status update to CANCELLED saves the order with paymentStatus FAILED
but leaves the product collection byte-for-byte unchanged: the widget
stays at 8 instead of returning to 10. -/
theorem codCancellation_does_not_release_stock :
    productStock codDb 1 = some 8
    ∧ (runUpdateOrderStatus codDb 9 "CANCELLED").products = codDb.products
    ∧ productStock (runUpdateOrderStatus codDb 9 "CANCELLED") 1 = some 8
    ∧ orderStatusOf (runUpdateOrderStatus codDb 9 "CANCELLED") 9 =
      some OrderStatus.CANCELLED
    ∧ orderPaymentStatus (runUpdateOrderStatus codDb 9 "CANCELLED") 9 =
      some PaymentStatus.FAILED :=
  ⟨rfl, rfl, rfl, rfl, rfl⟩

/-- C8 counterexample: the claim states DELIVERED is terminal under the
operator-driven update. The handler only validates the status value,
never the transition: it moves a DELIVERED order back to PENDING. -/
theorem updateOrderStatus_accepts_delivered_to_pending :
    orderStatusOf deliveredDb 9 = some OrderStatus.DELIVERED
    ∧ orderStatusOf (runUpdateOrderStatus deliveredDb 9 "PENDING") 9 =
      some OrderStatus.PENDING :=
  ⟨rfl, rfl⟩

/-- C6: creating an order from a cart whose second item lacks stock is
atomic in failure: the transaction aborts with an InsufficientStock
error carrying the available quantity, so no order document is
persisted and no product stock changes — including the first item,
which had already validated. -/
theorem createOrderFromCart_aborts_on_insufficient_stock
    (db : DB) (req : CreateOrderRequest) (addr : DeliveryAddress)
    (cart : Cart) (i1 i2 : CartItem) (rest : List CartItem)
    (p1 p2 : Product) (newOrderId timestamp randomDraw : Nat)
    (hu : req.userId ≠ "")
    (ha : req.deliveryAddress = some addr)
    (haf : addr.fullName ≠ "") (hap : addr.phoneNumber ≠ "")
    (haa : addr.address ≠ "") (hac : addr.city ≠ "")
    (hpm : req.paymentMethod = "CASH_ON_DELIVERY" ∨ req.paymentMethod = "ESEWA")
    (hcart : findCart db.carts req.userId = some cart)
    (hitems : cart.items = i1 :: i2 :: rest)
    (hp1 : findProduct db.products i1.product = some p1)
    (hs1 : ¬ p1.stock < i1.quantity)
    (hp2 : findProduct db.products i2.product = some p2)
    (hs2 : p2.stock < i2.quantity) :
    createOrderFromCart db req newOrderId timestamp randomDraw =
      .error (ApiError.insufficientStock p2.id p2.name p2.stock i2.quantity)
    ∧ runCreateOrderFromCart db req newOrderId timestamp randomDraw = db := by
  have hmain : createOrderFromCart db req newOrderId timestamp randomDraw =
      .error (ApiError.insufficientStock p2.id p2.name p2.stock i2.quantity) := by
    simp [createOrderFromCart, hu, ha, haf, hap, haa, hac, hpm, hcart, hitems,
      validateCartItems, hp1, hp2, hs1, hs2]
  exact ⟨hmain, by simp [runCreateOrderFromCart, hmain]⟩

/-- Witness for C6: the three-line cart whose middle item asks for five
gadgets while one is in stock aborts with the precise error and leaves
the database untouched. -/
theorem createOrderFromCart_aborts_on_insufficient_stock_witness :
    createOrderFromCart threeItemDb codRequest 11 1700000000000 42 =
      .error (ApiError.insufficientStock 2 "Gadget" 1 5)
    ∧ runCreateOrderFromCart threeItemDb codRequest 11 1700000000000 42 =
      threeItemDb :=
  createOrderFromCart_aborts_on_insufficient_stock threeItemDb codRequest
    address1 threeItemCart
    { product := 1, quantity := 2, price := 50, name := "Widget", image := "w.png" }
    { product := 2, quantity := 5, price := 30, name := "Gadget", image := "g.png" }
    [{ product := 1, quantity := 1, price := 50, name := "Widget", image := "w.png" }]
    widget gadget 11 1700000000000 42
    (by decide) rfl (by decide) (by decide) (by decide) (by decide)
    (Or.inl rfl) rfl rfl rfl (by decide) rfl (by decide)

/-- C7: the gateway branch of createOrderFromCart commits nothing but
the pending order: the committed state keeps the product and cart
collections untouched, the order is PENDING/PENDING and carries the
fresh correlation id, and the signed payment request built from the
order totals is returned to the caller. -/
theorem createOrderFromCart_esewa_frame
    (db : DB) (req : CreateOrderRequest) (addr : DeliveryAddress)
    (cart : Cart) (totalAmount : Int) (validatedItems : List OrderItem)
    (newOrderId timestamp randomDraw : Nat)
    (hu : req.userId ≠ "")
    (ha : req.deliveryAddress = some addr)
    (haf : addr.fullName ≠ "") (hap : addr.phoneNumber ≠ "")
    (haa : addr.address ≠ "") (hac : addr.city ≠ "")
    (hpm : req.paymentMethod = "ESEWA")
    (hcart : findCart db.carts req.userId = some cart)
    (hne : cart.items ≠ [])
    (hval : validateCartItems db.products cart.items =
      .ok (totalAmount, validatedItems)) :
    createOrderFromCart db req newOrderId timestamp randomDraw =
      .ok ({ db with orders := saveOrder db.orders (esewaOrderOf req addr totalAmount validatedItems newOrderId timestamp randomDraw) },
        esewaOrderOf req addr totalAmount validatedItems newOrderId timestamp randomDraw,
        some (prepareEsewaPaymentData totalAmount req.taxAmount
          req.deliveryCharge (generateTransactionUuid timestamp randomDraw)
          MERCHANT_CODE))
    ∧ (runCreateOrderFromCart db req newOrderId timestamp randomDraw).products =
        db.products
    ∧ (runCreateOrderFromCart db req newOrderId timestamp randomDraw).carts =
        db.carts
    ∧ (esewaOrderOf req addr totalAmount validatedItems newOrderId timestamp
        randomDraw).paymentStatus = PaymentStatus.PENDING
    ∧ (esewaOrderOf req addr totalAmount validatedItems newOrderId timestamp
        randomDraw).orderStatus = OrderStatus.PENDING
    ∧ (esewaOrderOf req addr totalAmount validatedItems newOrderId timestamp
        randomDraw).esewaTransactionUuid =
        some (generateTransactionUuid timestamp randomDraw)
    ∧ (esewaOrderOf req addr totalAmount validatedItems newOrderId timestamp
        randomDraw).items = validatedItems
    ∧ (esewaOrderOf req addr totalAmount validatedItems newOrderId timestamp
        randomDraw).grandTotal =
        totalAmount + req.taxAmount + req.deliveryCharge := by
  have hstr : ("ESEWA" : String) ≠ "CASH_ON_DELIVERY" := by decide
  have hmain : createOrderFromCart db req newOrderId timestamp randomDraw =
      .ok ({ db with orders := saveOrder db.orders (esewaOrderOf req addr totalAmount validatedItems newOrderId timestamp randomDraw) },
        esewaOrderOf req addr totalAmount validatedItems newOrderId timestamp randomDraw,
        some (prepareEsewaPaymentData totalAmount req.taxAmount
          req.deliveryCharge (generateTransactionUuid timestamp randomDraw)
          MERCHANT_CODE)) := by
    simp [createOrderFromCart, hu, ha, haf, hap, haa, hac, hpm, hcart, hne,
      hval, hstr, esewaOrderOf]
  refine ⟨hmain, ?_, ?_, rfl, rfl, rfl, rfl, rfl⟩ <;>
    simp [runCreateOrderFromCart, hmain]

/-- Witness for C7: the concrete gateway creation over the one-line
cart of u1 commits only the pending order and returns the signed
payment request. -/
theorem createOrderFromCart_esewa_frame_witness :
    createOrderFromCart freshDb esewaRequest 11 1700000000000 42 =
      .ok ({ freshDb with orders := saveOrder freshDb.orders (esewaOrderOf esewaRequest address1 100 [{ product := 1, quantity := 2, price := 50 }] 11 1700000000000 42) },
        esewaOrderOf esewaRequest address1 100
          [{ product := 1, quantity := 2, price := 50 }] 11 1700000000000 42,
        some (prepareEsewaPaymentData 100 10 5
          (generateTransactionUuid 1700000000000 42) MERCHANT_CODE))
    ∧ (runCreateOrderFromCart freshDb esewaRequest 11 1700000000000 42).products =
        freshDb.products
    ∧ (runCreateOrderFromCart freshDb esewaRequest 11 1700000000000 42).carts =
        freshDb.carts
    ∧ (esewaOrderOf esewaRequest address1 100
        [{ product := 1, quantity := 2, price := 50 }] 11 1700000000000
        42).paymentStatus = PaymentStatus.PENDING
    ∧ (esewaOrderOf esewaRequest address1 100
        [{ product := 1, quantity := 2, price := 50 }] 11 1700000000000
        42).orderStatus = OrderStatus.PENDING
    ∧ (esewaOrderOf esewaRequest address1 100
        [{ product := 1, quantity := 2, price := 50 }] 11 1700000000000
        42).esewaTransactionUuid =
        some (generateTransactionUuid 1700000000000 42)
    ∧ (esewaOrderOf esewaRequest address1 100
        [{ product := 1, quantity := 2, price := 50 }] 11 1700000000000
        42).items = [{ product := 1, quantity := 2, price := 50 }]
    ∧ (esewaOrderOf esewaRequest address1 100
        [{ product := 1, quantity := 2, price := 50 }] 11 1700000000000
        42).grandTotal = 100 + 10 + 5 :=
  createOrderFromCart_esewa_frame freshDb esewaRequest address1 cart1 100
    [{ product := 1, quantity := 2, price := 50 }] 11 1700000000000 42
    (by decide) rfl (by decide) (by decide) (by decide) (by decide)
    rfl rfl (by decide) rfl

/-- C8 amended: updateOrderStatus validates only the status value, not
the transition. An invalid value is rejected without mutation; any of
the four valid values is accepted whatever the current orderStatus,
storing exactly updatedOrderSpec: the requested status, paymentStatus
PAID for a COD order set DELIVERED, paymentStatus FAILED for a
cancellation while payment was PENDING, everything else unchanged. -/
theorem updateOrderStatus_value_check_only (db : DB) (orderId : Nat)
    (s : String) :
    (OrderStatus.ofString s = none →
      updateOrderStatus db orderId s = .error ApiError.invalidOrderStatus
      ∧ runUpdateOrderStatus db orderId s = db)
    ∧ (∀ t order, OrderStatus.ofString s = some t →
        findOrder db.orders orderId = some order →
        updateOrderStatus db orderId s =
          .ok ({ db with orders := saveOrder db.orders (updatedOrderSpec order t) },
            updatedOrderSpec order t)) := by
  constructor
  · intro h
    refine ⟨?_, ?_⟩
    · simp [updateOrderStatus, h]
    · simp [runUpdateOrderStatus, updateOrderStatus, h]
  · intro t order ht ho
    simp only [updateOrderStatus, ht, ho, updatedOrderSpec]
    by_cases h1 : order.paymentMethod = PaymentMethod.CASH_ON_DELIVERY ∧
        t = OrderStatus.DELIVERED
    · simp [h1]
    · by_cases h2 : t = OrderStatus.CANCELLED ∧
          order.paymentStatus = PaymentStatus.PENDING
      · simp [h1, h2]
      · simp [h1, h2]

/-- Witness for the amended C8: the delivered order is moved back to
PENDING, which the update accepts and stores. -/
theorem updateOrderStatus_value_check_only_witness :
    updateOrderStatus deliveredDb 9 "PENDING" =
      .ok ({ deliveredDb with orders := saveOrder deliveredDb.orders (updatedOrderSpec deliveredOrder OrderStatus.PENDING) },
        updatedOrderSpec deliveredOrder OrderStatus.PENDING) :=
  (updateOrderStatus_value_check_only deliveredDb 9 "PENDING").2
    OrderStatus.PENDING deliveredOrder rfl rfl

/-- C10: every successful save of a cart stores the totalAmount the
pre-save hook recomputes, so the invariant that a stored cart's
totalAmount equals the sum of price times quantity over its items is
preserved by every cart operation — addToCart, updateCartItem,
removeFromCart and clearCart, each of which also answers with a cart
satisfying it — and by the order workflow (creation and success
callback); the cleared cart that clearCart or the order workflow saves
always carries totalAmount zero. -/
theorem cartTotal_invariant_after_save (db : DB) (h : CartsInvariant db) :
    (∀ req db1 cartOut, addToCart db req = .ok (db1, cartOut) →
      CartsInvariant db1 ∧ cartOut.totalAmount = cartTotal cartOut.items)
    ∧ (∀ req newOrderId timestamp randomDraw db1 order pd,
        createOrderFromCart db req newOrderId timestamp randomDraw =
          .ok (db1, order, pd) → CartsInvariant db1)
    ∧ (∀ resp statusCheck db1 order,
        handleEsewaSuccess db resp statusCheck = .ok (db1, order) →
        CartsInvariant db1)
    ∧ (∀ cart : Cart,
        (applyCartPreSaveHook { cart with items := [] }).totalAmount = 0)
    ∧ (∀ userId productId quantity db1 cartOut,
        updateCartItem db userId productId quantity = .ok (db1, cartOut) →
        CartsInvariant db1 ∧ cartOut.totalAmount = cartTotal cartOut.items)
    ∧ (∀ userId productId db1 cartOut,
        removeFromCart db userId productId = .ok (db1, cartOut) →
        CartsInvariant db1 ∧ cartOut.totalAmount = cartTotal cartOut.items)
    ∧ (∀ userId db1 cartOut,
        clearCart db userId = .ok (db1, cartOut) →
        CartsInvariant db1
        ∧ ∀ c, cartOut = some c → c.totalAmount = 0) := by
  refine ⟨?_, ?_, ?_, ?_, ?_, ?_, ?_⟩
  · intro req db1 cartOut hok
    obtain ⟨cnew, hs, hc⟩ := addToCart_carts_shape hok
    refine ⟨cartsInvariant_of_shape h (Or.inr ⟨cnew, hs⟩), ?_⟩
    rw [hc]
    rfl
  · intro req newOrderId timestamp randomDraw db1 order pd hok
    exact cartsInvariant_of_shape h (createOrder_carts_shape hok)
  · intro resp statusCheck db1 order hok
    exact cartsInvariant_of_shape h (esewaSuccess_carts_shape hok)
  · intro cart
    rfl
  · intro userId productId quantity db1 cartOut hok
    obtain ⟨cnew, hs, hc⟩ := updateCartItem_carts_shape hok
    refine ⟨cartsInvariant_of_shape h (Or.inr ⟨cnew, hs⟩), ?_⟩
    rw [hc]
    rfl
  · intro userId productId db1 cartOut hok
    obtain ⟨cnew, hs, hc⟩ := removeFromCart_carts_shape hok
    refine ⟨cartsInvariant_of_shape h (Or.inr ⟨cnew, hs⟩), ?_⟩
    rw [hc]
    rfl
  · intro userId db1 cartOut hok
    rcases clearCart_carts_shape hok with ⟨hs, hn⟩ | ⟨cnew, hs, hc, hnil⟩
    · refine ⟨cartsInvariant_of_shape h (Or.inl hs), ?_⟩
      intro c hcc
      rw [hn] at hcc
      exact Option.noConfusion hcc
    · refine ⟨cartsInvariant_of_shape h (Or.inr ⟨cnew, hs⟩), ?_⟩
      intro c hcc
      rw [hc] at hcc
      simp only [Option.some.injEq] at hcc
      rw [← hcc]
      simp [applyCartPreSaveHook, hnil, cartTotal]

/-- Witness for C10: bumping the widget line of the cart of u1 saves a
cart whose stored total is the recomputed 150, and the whole database
still satisfies the invariant. -/
theorem cartTotal_invariant_after_save_witness :
    CartsInvariant bumpedDb
    ∧ bumpedCart.totalAmount = cartTotal bumpedCart.items :=
  (cartTotal_invariant_after_save freshDb
    (by unfold CartsInvariant; decide)).1 addReq bumpedDb bumpedCart rfl

end ClaimTheorems

end EcomSpec
